import Mathlib

/-!
# Verification of the notification delivery subsystem

Shallow embedding of the asynchronous notification queue of the
Questionnaire repository (files `models.py`, `notification_service.py`,
`telegram_service.py`, `worker.py`) together with theorems settling the
specification claims about it.

Conventions of the embedding:
* `datetime` values are natural numbers (seconds); `timedelta(minutes=m)`
  becomes `60 * m`.
* The durable `notification_queue` table is a `List Job` in table
  (insertion / rowid) order; an SQLAlchemy query without `order_by`
  returns rows in that order.
* The SQLAlchemy session is modelled explicitly: per-job mutations are
  buffered and become durable only at `db.session.commit()`.
* Outcomes of outbound network calls are supplied by environments
  (`Nat → …`), indexed by job id or by attempt number.
-/

namespace Questionnaire

/-- `NotificationStatus` enum from `models.py` (lines 12-18). -/
inductive NotificationStatus where
  | pending
  | processing
  | sent
  | failed
  | retrying
deriving DecidableEq, Repr

/-- One row of the `notification_queue` table (`models.py`, class
`NotificationQueue`, lines 141-215).  Fields not relevant to any claim
(`metadata_json`, `created_at`, `updated_at`) are kept where the claims
mention them and dropped otherwise; `metadata_json` updates performed by
the Telegram send path are not modelled. -/
structure Job where
  id : Nat
  userId : Nat
  notificationType : String
  messageContent : String
  status : NotificationStatus
  retryCount : Nat
  maxRetries : Nat
  scheduledAt : Nat
  sentAt : Option Nat
  errorMessage : Option String
  dedupKey : Option String
  lockedAt : Option Nat
  createdAt : Nat
deriving DecidableEq, Repr

/-- `NotificationService.add_notification` (`notification_service.py`,
lines 103-163), happy path: unconditionally constructs a new
`NotificationQueue` row with status `pending`, `scheduled_at = now`,
`created_at = now`, adds it to the session and commits.  The Python
function takes no `dedup_key` argument and performs no lookup of
existing rows; column defaults `retry_count = 0`, `max_retries = 3`,
`dedup_key = NULL`, `locked_at = NULL` apply (`models.py` lines
150-158).  `newId` stands for the autoincrement primary key. -/
def addNotification (table : List Job) (userId : Nat) (notificationType : String)
    (messageContent : String) (now : Nat) (newId : Nat) : List Job :=
  table ++ [{ id := newId
              userId := userId
              notificationType := notificationType
              messageContent := messageContent
              status := .pending
              retryCount := 0
              maxRetries := 3
              scheduledAt := now
              sentAt := none
              errorMessage := none
              dedupKey := none
              lockedAt := none
              createdAt := now }]

/-- Filter of the claim query in `process_pending_notifications`
(`notification_service.py`, lines 220-228):
`status ∈ {pending, retrying} ∧ scheduled_at ≤ now`.  Note that
`locked_at` does not occur in the query. -/
def isReady (now : Nat) (j : Job) : Bool :=
  (j.status == .pending || j.status == .retrying) && decide (j.scheduledAt ≤ now)

/-- The batch selected by `process_pending_notifications`: the ready rows
of the table, `.limit(50)`, in table order (the query has no
`order_by`). -/
def selectBatch (table : List Job) (now : Nat) : List Job :=
  (table.filter (isReady now)).take 50

/-- Queue-level retry delay in minutes (`notification_service.py`, line
281): `delay_minutes = 5 * (3 ** (retry_count - 1))`. -/
def queueDelayMinutes (retryCount : Nat) : Nat :=
  5 * 3 ^ (retryCount - 1)

/-- Mutations applied to one claimed job by the loop body of
`process_pending_notifications` (lines 251-293), given whether
`_send_notification` returned `True`.  On success: status `sent`,
`sent_at = now`.  On failure: `retry_count += 1`; if the new count is
`≥ 3` (hard-coded constant, line 266) status `failed`, else status
`retrying` with `scheduled_at = now + delay_minutes` minutes. -/
def processJob (now : Nat) (j : Job) (success : Bool) : Job :=
  if success then
    { j with status := .sent, sentAt := some now }
  else
    let rc := j.retryCount + 1
    if rc ≥ 3 then
      { j with retryCount := rc, status := .failed }
    else
      { j with retryCount := rc, status := .retrying,
               scheduledAt := now + 60 * queueDelayMinutes rc }

/-- Result of `_send_notification` for one job as seen by the loop body:
the call returned `True`, returned `False`, or an exception escaped the
per-job work and was caught by the inner `except` (line 297), which
`continue`s to the next job. -/
inductive Outcome where
  | ok
  | sendFailed
  | exn
deriving DecidableEq, Repr

/-- Session-level events produced by one run of
`process_pending_notifications`: buffered mutation of the row with a
given id, and the single `db.session.commit()` (line 305). -/
inductive BatchEv where
  | mutate (id : Nat) (j : Job)
  | commit
deriving DecidableEq, Repr

/-- The `for notification in notifications` loop (lines 237-303): each
job either gets its mutation buffered in the session, or (on an
exception) is skipped by `continue` with no mutation. -/
def loopEvents (now : Nat) (env : Nat → Outcome) : List Job → List BatchEv
  | [] => []
  | j :: rest =>
    match env j.id with
    | .exn => loopEvents now env rest
    | .ok => .mutate j.id (processJob now j true) :: loopEvents now env rest
    | .sendFailed => .mutate j.id (processJob now j false) :: loopEvents now env rest

/-- The full event trace of one `process_pending_notifications` run:
the loop over the selected batch followed by the single commit. -/
def batchEvents (table : List Job) (now : Nat) (env : Nat → Outcome) : List BatchEv :=
  loopEvents now env (selectBatch table now) ++ [.commit]

/-- Apply a list of buffered row mutations to the durable table:
each row is replaced by its buffered update, if any. -/
def applyUpdates (table : List Job) (updates : List (Nat × Job)) : List Job :=
  table.map fun r =>
    match updates.find? (fun p => p.1 == r.id) with
    | some p => p.2
    | none => r

/-- Execute an event trace against the durable table: `mutate` buffers a
change in the session, `commit` makes the buffered changes durable and
empties the session. -/
def runEvents (durable : List Job) (session : List (Nat × Job)) :
    List BatchEv → List Job × List (Nat × Job)
  | [] => (durable, session)
  | .mutate i j :: rest => runEvents durable ((i, j) :: session) rest
  | .commit :: rest => runEvents (applyUpdates durable session) [] rest

/-- The durable table after one `process_pending_notifications` run. -/
def processBatch (table : List Job) (now : Nat) (env : Nat → Outcome) : List Job :=
  (runEvents table [] (batchEvents table now env)).1

/-! ## Circuit breaker (`telegram_service.py`, lines 22-65) -/

/-- Breaker states; `'CLOSED' / 'OPEN' / 'HALF_OPEN'` strings in the
source (`opened` instead of the Lean keyword). -/
inductive BreakerState where
  | closed
  | opened
  | halfOpen
deriving DecidableEq, Repr

/-- `CircuitBreaker.__init__`: configuration plus mutable state
(`failure_count = 0`, `last_failure_time = None`, `state = 'CLOSED'`). -/
structure CircuitBreaker where
  failureThreshold : Nat
  recoveryTimeout : Nat
  failureCount : Nat
  lastFailureTime : Option Nat
  state : BreakerState
deriving DecidableEq, Repr

/-- A freshly constructed `CircuitBreaker(failure_threshold,
recovery_timeout)`. -/
def mkCircuitBreaker (failureThreshold recoveryTimeout : Nat) : CircuitBreaker :=
  { failureThreshold := failureThreshold
    recoveryTimeout := recoveryTimeout
    failureCount := 0
    lastFailureTime := none
    state := .closed }

/-- `CircuitBreaker._should_attempt_reset` (lines 49-52):
`last_failure_time` is set and `now - last_failure_time ≥
recovery_timeout`. -/
def shouldAttemptReset (cb : CircuitBreaker) (now : Nat) : Bool :=
  match cb.lastFailureTime with
  | none => false
  | some t => decide (cb.recoveryTimeout ≤ now - t)

/-- `CircuitBreaker._on_success` (lines 54-57): reset the failure count
and close. -/
def onSuccess (cb : CircuitBreaker) : CircuitBreaker :=
  { cb with failureCount := 0, state := .closed }

/-- `CircuitBreaker._on_failure` (lines 59-65): count the failure,
record its time, and open once the threshold is reached. -/
def onFailure (cb : CircuitBreaker) (now : Nat) : CircuitBreaker :=
  let cb := { cb with failureCount := cb.failureCount + 1, lastFailureTime := some now }
  if cb.failureCount ≥ cb.failureThreshold then { cb with state := .opened } else cb

/-- Observable result of `CircuitBreaker.call`: the fail-fast
`CircuitBreakerError` raised without invoking the wrapped function, or
the function was invoked and returned / raised an expected exception
(carried as its message). -/
inductive CallResult where
  | fastFail
  | succeeded
  | raised (msg : String)
deriving DecidableEq, Repr

/-- The body of `CircuitBreaker.call` after the open-state check: invoke
the wrapped function (whose behaviour at this moment is `funcResult`:
`none` = normal return, `some e` = expected exception `e`). -/
def invokeGuarded (cb : CircuitBreaker) (now : Nat) (funcResult : Option String) :
    CallResult × CircuitBreaker :=
  match funcResult with
  | none => (.succeeded, onSuccess cb)
  | some e => (.raised e, onFailure cb now)

/-- `CircuitBreaker.call` (lines 33-47): while `OPEN`, either move to
`HALF_OPEN` (recovery elapsed) and proceed, or raise
`CircuitBreakerError` without invoking the function; otherwise invoke
the function and record the result. -/
def cbCall (cb : CircuitBreaker) (now : Nat) (funcResult : Option String) :
    CallResult × CircuitBreaker :=
  if cb.state = .opened then
    if shouldAttemptReset cb now then
      invokeGuarded { cb with state := .halfOpen } now funcResult
    else
      (.fastFail, cb)
  else
    invokeGuarded cb now funcResult

/-- `k` consecutive calls whose wrapped function fails each time
(`datetime.now()` fixed at `now`; the exception message is
irrelevant). -/
def iterFailures (cb : CircuitBreaker) (now : Nat) : Nat → CircuitBreaker
  | 0 => cb
  | k + 1 => (cbCall (iterFailures cb now k) now (some "boom")).2

/-! ## Telegram sender (`telegram_service.py`, lines 67-153, 448-487) -/

/-- Sender-level backoff `TelegramService._exponential_backoff`
(lines 92-108): `min(retry_delay * 2 ^ attempt + jitter, 60)` where
`jitter` is drawn uniformly from `[0.1, 0.5]` and is a parameter
here. -/
def exponentialBackoff (retryDelay : ℚ) (attempt : Nat) (jitter : ℚ) : ℚ :=
  min (retryDelay * 2 ^ attempt + jitter) 60

/-- Result dictionary of the send path: the keys `success` and `error`
(plus `retry_after` of the circuit-breaker branch) that the claims talk
about. -/
structure TgResult where
  success : Bool
  errorMsg : Option String
  retryAfter : Option Nat
deriving DecidableEq, Repr

/-- Error string of `send_message_to_chat` for an empty chat id
(line 467). -/
def emptyChatError : String := "ID чату не може бути порожнім"

/-- Error string of `send_message_to_chat` for an empty message
(line 474). -/
def emptyMessageError : String := "Повідомлення не може бути порожнім"

/-- Error string of `_retry_with_backoff` when the circuit breaker is
open (line 132). -/
def breakerOpenError : String := "Сервіс тимчасово недоступний. Спробуйте пізніше."

/-- Error string of `_retry_with_backoff` when every attempt failed
(line 151), with the attempt count and the last exception text
interpolated. -/
def allFailedMsg (attempts : Nat) (lastExc : String) : String :=
  "Не вдалося виконати запит після " ++ toString attempts ++ " спроб: " ++ lastExc

/-- Python's `message.strip()` (as used on line 470): drop leading and
trailing whitespace. -/
def pyStrip (s : String) : String :=
  (((s.toList.dropWhile Char.isWhitespace).reverse.dropWhile
      Char.isWhitespace).reverse).asString

/-- Message truncation in `send_message_to_chat` (lines 478-480):
messages over 4096 characters are cut to 4093 characters plus an
ellipsis. -/
def truncateMessage (message : String) : String :=
  if message.length > 4096 then (message.toList.take 4093).asString ++ "..." else message

/-- The `for attempt in range(max_retries + 1)` loop of
`_retry_with_backoff` (lines 110-153).  `remaining` is the number of
loop iterations left (initially `maxRetries + 1`), `attempt` the current
index.  `env attempt = none` means the guarded call succeeds at that
attempt, `some e` that it raises the expected exception `e`; `times
attempt` is the wall-clock instant of the attempt (the sleeps between
attempts advance it).  A `CircuitBreakerError` returns the fail-fast
dictionary; success returns the success dictionary of
`_send_message_internal`; on a failure at `attempt < max_retries` the
loop sleeps and retries, otherwise it breaks and returns the
all-attempts-failed dictionary. -/
def retryAux (maxRetries : Nat) (times : Nat → Nat) (env : Nat → Option String) :
    CircuitBreaker → String → Nat → Nat → TgResult × CircuitBreaker
  | cb, lastExc, _, 0 =>
      ({ success := false, errorMsg := some (allFailedMsg (maxRetries + 1) lastExc),
         retryAfter := none }, cb)
  | cb, _, attempt, remaining + 1 =>
    match cbCall cb (times attempt) (env attempt) with
    | (.fastFail, cb') =>
        ({ success := false, errorMsg := some breakerOpenError,
           retryAfter := some cb'.recoveryTimeout }, cb')
    | (.succeeded, cb') =>
        ({ success := true, errorMsg := none, retryAfter := none }, cb')
    | (.raised e, cb') =>
        if attempt < maxRetries then
          retryAux maxRetries times env cb' e (attempt + 1) remaining
        else
          ({ success := false, errorMsg := some (allFailedMsg (maxRetries + 1) e),
             retryAfter := none }, cb')

/-- `TelegramService._retry_with_backoff` applied to
`_send_message_internal`. -/
def retryWithBackoff (cb : CircuitBreaker) (maxRetries : Nat) (times : Nat → Nat)
    (env : Nat → Option String) : TgResult × CircuitBreaker :=
  retryAux maxRetries times env cb "" 0 (maxRetries + 1)

/-- `TelegramService.send_message_to_chat` (lines 448-487): validation
of chat id and message (`if not chat_id`, `if not message or
len(message.strip()) == 0`), truncation, then the guarded retry loop.
The service default `max_retries = 3` is a parameter `maxRetries`. -/
def sendMessageToChat (cb : CircuitBreaker) (maxRetries : Nat) (chatId message : String)
    (times : Nat → Nat) (env : Nat → Option String) : TgResult × CircuitBreaker :=
  if chatId = "" then
    ({ success := false, errorMsg := some emptyChatError, retryAfter := none }, cb)
  else if pyStrip message = "" then
    ({ success := false, errorMsg := some emptyMessageError, retryAfter := none }, cb)
  else
    retryWithBackoff cb maxRetries times env

/-! ## Distributed lock and worker loop (`worker.py`) -/

/-- The lock key used by the worker (`worker.py`, line 7). -/
def lockKey : String := "notification_worker_lock"

/-- Lock table of the shared store: per key, the expiry instant of the
current holder, if any. -/
def LockStore : Type := String → Option Nat

/-- Modelled from the spec: `notification_service.acquire_distributed_lock`
is called by `worker.py` (line 15) but is not defined in any source file
under `src/`; modelled from spec section 4.5, `AcquireLock(key,
ttlSeconds) -> bool`: a conditional insert/update that succeeds only if
no unexpired holder exists, recording ownership until `now + ttl`. -/
def acquireDistributedLock (store : LockStore) (key : String) (ttl now : Nat) :
    Bool × LockStore :=
  match store key with
  | some expiry =>
      if now < expiry then (false, store)
      else (true, fun k => if k = key then some (now + ttl) else store k)
  | none => (true, fun k => if k = key then some (now + ttl) else store k)

/-- Modelled from the spec: `notification_service.release_distributed_lock`
is called by `worker.py` (line 21) but is not defined in any source file
under `src/`; modelled from spec section 4.5, `ReleaseLock(key)` clears
the lock early. -/
def releaseDistributedLock (store : LockStore) (key : String) : LockStore :=
  fun k => if k = key then none else store k

/-- One iteration of the worker loop (`worker.py`, lines 13-27): attempt
`acquire_distributed_lock(LOCK_KEY, ttl_seconds=interval * 2)`; if it
returns true, run one `process_pending_notifications` and then (in the
`finally` block) release the lock; otherwise do nothing this tick.  The
returned flag records whether a batch ran. -/
def workerTick (interval : Nat) (store : LockStore) (table : List Job) (now : Nat)
    (env : Nat → Outcome) : LockStore × List Job × Bool :=
  let acq := acquireDistributedLock store lockKey (interval * 2) now
  if acq.1 then
    (releaseDistributedLock acq.2 lockKey, processBatch table now env, true)
  else
    (acq.2, table, false)

/-! ## Helper definitions and lemmas about the batch machinery -/

/-- The row mutations buffered by the processing loop, in loop order:
one per selected job whose processing does not raise. -/
def collectUpdates (now : Nat) (env : Nat → Outcome) : List Job → List (Nat × Job)
  | [] => []
  | j :: rest =>
    match env j.id with
    | .exn => collectUpdates now env rest
    | .ok => (j.id, processJob now j true) :: collectUpdates now env rest
    | .sendFailed => (j.id, processJob now j false) :: collectUpdates now env rest

/-- Recognises a session event that writes the `processing` status. -/
def writesProcessing (e : BatchEv) : Bool :=
  match e with
  | .mutate _ j => j.status == .processing
  | .commit => false

/-- A sample freshly enqueued job row, used to instantiate theorems at
concrete inputs. -/
def baseJob : Job :=
  { id := 1
    userId := 7
    notificationType := "telegram"
    messageContent := "hi"
    status := .pending
    retryCount := 0
    maxRetries := 3
    scheduledAt := 0
    sentAt := none
    errorMessage := none
    dedupKey := none
    lockedAt := none
    createdAt := 0 }

/-- A job row in a terminal state. -/
def sentJob : Job := { baseJob with id := 2, status := .sent }

/-- A job row as the second `add_notification` call would have created
it had the first one been enqueued already. -/
def c1Table1 : List Job := addNotification [] 7 "telegram" "hi" 0 1

/-- The table after a second identical enqueue call. -/
def c1Table2 : List Job := addNotification c1Table1 7 "telegram" "hi" 0 2

/-- A job whose `max_retries` column is larger than the hard-coded
threshold 3 of `process_pending_notifications`. -/
def looseJob : Job := { baseJob with retryCount := 2, maxRetries := 5 }

/-- A job whose `max_retries` column is smaller than the hard-coded
threshold 3. -/
def tightJob : Job := { baseJob with status := .retrying, retryCount := 2, maxRetries := 2 }

/-- A job with one queue-level retry consumed (and default
`max_retries = 3`). -/
def onceRetriedJob : Job := { baseJob with status := .retrying, retryCount := 1 }

/-- A job claimed long ago: status `processing`, `locked_at = 0`. -/
def staleClaimedJob : Job := { baseJob with status := .processing, lockedAt := some 0 }

/-- A due job that was inserted first but is scheduled later. -/
def lateJob : Job := { baseJob with id := 1, scheduledAt := 10 }

/-- A due job that was inserted second but is scheduled earlier. -/
def earlyJob : Job := { baseJob with id := 2, scheduledAt := 5 }

/-- An outcome environment in which processing the job with id 1 raises
an exception and every other job succeeds. -/
def exnFirstEnv : Nat → Outcome := fun i => if i = 1 then .exn else .ok

/-- A lock table with no holder for any key. -/
def emptyLockStore : LockStore := fun _ => none

/-- A lock table whose worker-lock key is held until instant 100. -/
def heldLockStore : LockStore := fun k => if k = lockKey then some 100 else none

/-- The breaker of `TelegramService` (threshold 5, recovery 300 s)
right after opening at instant 0: five counted failures, open. -/
def openBreaker : CircuitBreaker :=
  { failureThreshold := 5, recoveryTimeout := 300, failureCount := 5,
    lastFailureTime := some 0, state := .opened }

lemma loopEvents_eq_map (now : Nat) (env : Nat → Outcome) (l : List Job) :
    loopEvents now env l = (collectUpdates now env l).map (fun p => BatchEv.mutate p.1 p.2) := by
  induction l with
  | nil => rfl
  | cons j rest ih => cases h : env j.id <;> simp [loopEvents, collectUpdates, h, ih]

lemma runEvents_loop_commit (now : Nat) (env : Nat → Outcome) (l : List Job)
    (durable : List Job) (session : List (Nat × Job)) :
    runEvents durable session (loopEvents now env l ++ [.commit]) =
      (applyUpdates durable ((collectUpdates now env l).reverse ++ session), []) := by
  induction l generalizing session with
  | nil => simp [loopEvents, collectUpdates, runEvents]
  | cons j rest ih =>
      cases h : env j.id <;>
        simp [loopEvents, collectUpdates, h, runEvents, ih, List.append_assoc]

lemma processBatch_eq (table : List Job) (now : Nat) (env : Nat → Outcome) :
    processBatch table now env =
      applyUpdates table ((collectUpdates now env (selectBatch table now)).reverse) := by
  simp [processBatch, batchEvents, runEvents_loop_commit]

lemma runEvents_loop_only (now : Nat) (env : Nat → Outcome) (l : List Job)
    (durable : List Job) (session : List (Nat × Job)) :
    (runEvents durable session (loopEvents now env l)).1 = durable := by
  induction l generalizing session with
  | nil => rfl
  | cons j rest ih => cases h : env j.id <;> simp [loopEvents, h, runEvents, ih]

lemma selectBatch_sublist (table : List Job) (now : Nat) :
    (selectBatch table now).Sublist table :=
  ((table.filter (isReady now)).take_sublist 50).trans (List.filter_sublist table)

lemma mem_table_of_mem_selectBatch {table : List Job} {now : Nat} {j : Job}
    (h : j ∈ selectBatch table now) : j ∈ table :=
  (selectBatch_sublist table now).subset h

lemma isReady_of_mem_selectBatch {table : List Job} {now : Nat} {j : Job}
    (h : j ∈ selectBatch table now) : isReady now j = true :=
  List.of_mem_filter (((table.filter (isReady now)).take_sublist 50).subset h)

lemma isReady_iff (now : Nat) (j : Job) :
    isReady now j = true ↔
      (j.status = .pending ∨ j.status = .retrying) ∧ j.scheduledAt ≤ now := by
  simp [isReady]

lemma collectUpdates_mem_id {now : Nat} {env : Nat → Outcome} :
    ∀ {l : List Job} {p : Nat × Job}, p ∈ collectUpdates now env l → ∃ b ∈ l, p.1 = b.id := by
  intro l
  induction l with
  | nil => intro p hp; simp [collectUpdates] at hp
  | cons j rest ih =>
      intro p hp
      cases h : env j.id
      case ok =>
        simp only [collectUpdates, h, List.mem_cons] at hp
        rcases hp with hp | hp
        · exact ⟨j, by simp, by simp [hp]⟩
        · obtain ⟨b, hb, hid⟩ := ih hp
          exact ⟨b, by simp [hb], hid⟩
      case sendFailed =>
        simp only [collectUpdates, h, List.mem_cons] at hp
        rcases hp with hp | hp
        · exact ⟨j, by simp, by simp [hp]⟩
        · obtain ⟨b, hb, hid⟩ := ih hp
          exact ⟨b, by simp [hb], hid⟩
      case exn =>
        simp only [collectUpdates, h] at hp
        obtain ⟨b, hb, hid⟩ := ih hp
        exact ⟨b, by simp [hb], hid⟩

lemma collectUpdates_mem_ok {now : Nat} {env : Nat → Outcome} {j : Job} :
    ∀ {l : List Job}, j ∈ l → env j.id = .ok →
      (j.id, processJob now j true) ∈ collectUpdates now env l := by
  intro l
  induction l with
  | nil => intro h; simp at h
  | cons b rest ih =>
      intro hj henv
      rcases List.mem_cons.mp hj with rfl | hj
      · simp [collectUpdates, henv]
      · cases h : env b.id <;> simp [collectUpdates, h, ih hj henv]

lemma collectUpdates_mem_sendFailed {now : Nat} {env : Nat → Outcome} {j : Job} :
    ∀ {l : List Job}, j ∈ l → env j.id = .sendFailed →
      (j.id, processJob now j false) ∈ collectUpdates now env l := by
  intro l
  induction l with
  | nil => intro h; simp at h
  | cons b rest ih =>
      intro hj henv
      rcases List.mem_cons.mp hj with rfl | hj
      · simp [collectUpdates, henv]
      · cases h : env b.id <;> simp [collectUpdates, h, ih hj henv]

lemma processJob_status (now : Nat) (j : Job) (s : Bool) :
    (processJob now j s).status = .sent ∨ (processJob now j s).status = .failed ∨
      (processJob now j s).status = .retrying := by
  by_cases hs : s
  · subst hs; simp [processJob]
  · simp only [Bool.not_eq_true] at hs
    subst hs
    by_cases h3 : j.retryCount + 1 ≥ 3 <;> simp [processJob, h3]

lemma terminal_mem_processBatch {table : List Job} {now : Nat} {env : Nat → Outcome}
    {j : Job} (hnodup : (table.map Job.id).Nodup) (hj : j ∈ table)
    (hterm : j.status = .sent ∨ j.status = .failed) :
    j ∈ processBatch table now env := by
  rw [processBatch_eq]
  have hfind :
      ((collectUpdates now env (selectBatch table now)).reverse).find?
        (fun p => p.1 == j.id) = none := by
    rw [List.find?_eq_none]
    intro p hp
    rw [List.mem_reverse] at hp
    obtain ⟨b, hb, hid⟩ := collectUpdates_mem_id hp
    simp only [beq_iff_eq]
    intro hpj
    have hbj : b = j :=
      List.inj_on_of_nodup_map hnodup (mem_table_of_mem_selectBatch hb) hj
        (by rw [← hid, hpj])
    have hready := (isReady_iff now b).mp (isReady_of_mem_selectBatch hb)
    rw [hbj] at hready
    rcases hterm with h | h <;> rcases hready.1 with h2 | h2 <;> simp [h] at h2
  exact List.mem_map.mpr ⟨j, hj, by rw [hfind]⟩

/-! ## Claim theorems -/

/-- C1, counterexample.  The claim asserts idempotent enqueue: a second
`Enqueue` call carrying the same `dedup_key` while the first job is
still non-terminal must be a no-op leaving exactly one durable row.  In
the code, `add_notification` takes no dedup argument and never consults
the `dedup_key` column: two identical enqueue calls — both carrying the
same (NULL) dedup key — made while the first job is still `pending`
leave two durable rows. -/
theorem C1_counterexample :
    c1Table1.map Job.status = [.pending] ∧
    c1Table1.map Job.dedupKey = [none] ∧
    c1Table2.map Job.dedupKey = [none, none] ∧
    c1Table2.length = 2 :=
  ⟨rfl, rfl, rfl, rfl⟩

/-- C1, amended: `add_notification` performs no dedup check at all.
Every successful call appends exactly one new row with status
`pending`, `scheduled_at = now` and a NULL `dedup_key`, leaving all
existing rows in place, whatever their states or dedup keys. -/
theorem C1_enqueue_always_inserts :
    ∀ (table : List Job) (uid : Nat) (nt mc : String) (now newId : Nat),
      ∃ new, addNotification table uid nt mc now newId = table ++ [new] ∧
        new.status = .pending ∧ new.scheduledAt = now ∧ new.dedupKey = none ∧
        (addNotification table uid nt mc now newId).length = table.length + 1 := by
  intro table uid nt mc now newId
  exact ⟨_, rfl, rfl, rfl, rfl, by simp [addNotification]⟩

/-- C2, counterexample.  The claim asserts that each selected job is set
to `processing` before the sender is invoked and never moves directly
from `pending` to `sent`.  In the code, a batch run over a single due
`pending` job whose send succeeds buffers exactly one mutation — straight
to `sent` — and no event of the run ever writes the `processing`
status. -/
theorem C2_counterexample :
    baseJob.status = .pending ∧
    (processJob 0 baseJob true).status = .sent ∧
    batchEvents [baseJob] 0 (fun _ => .ok) =
      [.mutate 1 (processJob 0 baseJob true), .commit] ∧
    (batchEvents [baseJob] 0 (fun _ => .ok)).filter writesProcessing = [] :=
  ⟨rfl, rfl, rfl, rfl⟩

/-- C2, amended: batch processing moves each selected job directly from
`pending`/`retrying` to `sent`, `failed` or `retrying` — the
`processing` status is never assigned, and the sender is invoked while
the stored status is still `pending` or `retrying`; `sent` and `failed`
rows are never selected by the batch query and survive any batch run
unchanged (only the separate cleanup deletes them). -/
theorem C2_direct_transitions_and_terminal_states :
    (∀ (now : Nat) (j : Job) (s : Bool),
       (processJob now j s).status = .sent ∨ (processJob now j s).status = .failed ∨
         (processJob now j s).status = .retrying) ∧
    (∀ (table : List Job) (now : Nat) (j : Job), j ∈ selectBatch table now →
       (j.status = .pending ∨ j.status = .retrying) ∧ j.scheduledAt ≤ now) ∧
    (∀ (table : List Job) (now : Nat) (env : Nat → Outcome) (j : Job),
       (table.map Job.id).Nodup → j ∈ table →
       j.status = .sent ∨ j.status = .failed → j ∈ processBatch table now env) := by
  refine ⟨processJob_status, ?_, ?_⟩
  · intro table now j h
    exact (isReady_iff now j).mp (isReady_of_mem_selectBatch h)
  · intro table now env j hnodup hj hterm
    exact terminal_mem_processBatch hnodup hj hterm

/-- Witness for C2: the amended theorem applied to a one-job table of a
due pending job and to a one-job table of a sent job. -/
theorem C2_direct_transitions_witness :
    ((baseJob.status = .pending ∨ baseJob.status = .retrying) ∧ baseJob.scheduledAt ≤ 0) ∧
    sentJob ∈ processBatch [sentJob] 0 (fun _ => .ok) :=
  ⟨C2_direct_transitions_and_terminal_states.2.1 [baseJob] 0 baseJob (by decide),
   C2_direct_transitions_and_terminal_states.2.2 [sentJob] 0 (fun _ => .ok) sentJob
     (by decide) (by decide) (Or.inl rfl)⟩

/-- C4, counterexample.  The claim asserts `retry_count ≤ max_retries`
for every job at all times and that a job fails exactly when its
`retry_count` has reached the job's `max_retries` field.  The code
compares against the constant 3 instead: a failing job with
`max_retries = 5` is marked `failed` at `retry_count = 3 < 5`, and a
failing job with `max_retries = 2` ends with `retry_count = 3 > 2`. -/
theorem C4_counterexample :
    ((processJob 0 looseJob false).status = .failed ∧
       (processJob 0 looseJob false).retryCount = 3 ∧ 3 < looseJob.maxRetries) ∧
    ((processJob 0 tightJob false).retryCount = 3 ∧ tightJob.maxRetries = 2) := by
  decide

/-- C4, amended: the failure threshold is the hard-coded constant 3,
not the job's `max_retries` field.  Jobs created by `add_notification`
get `retry_count = 0` and `max_retries = 3` (the column default), a
successful attempt leaves `retry_count` unchanged, and for any job with
`max_retries = 3` and `retry_count < max_retries` a failing attempt
increments `retry_count`, keeps `retry_count ≤ max_retries`, and yields
`failed` exactly when the new count equals `max_retries` (`retrying`
otherwise). -/
theorem C4_retry_budget_constant_three :
    (∀ (table : List Job) (uid : Nat) (nt mc : String) (now newId : Nat),
       ∃ new, addNotification table uid nt mc now newId = table ++ [new] ∧
         new.retryCount = 0 ∧ new.maxRetries = 3) ∧
    (∀ (now : Nat) (j : Job), (processJob now j true).retryCount = j.retryCount) ∧
    (∀ (now : Nat) (j : Job), j.maxRetries = 3 → j.retryCount < j.maxRetries →
       (processJob now j false).retryCount = j.retryCount + 1 ∧
       (processJob now j false).retryCount ≤ j.maxRetries ∧
       ((processJob now j false).status = .failed ↔ j.retryCount + 1 = j.maxRetries) ∧
       ((processJob now j false).status = .retrying ↔ j.retryCount + 1 < j.maxRetries)) := by
  refine ⟨fun table uid nt mc now newId => ⟨_, rfl, rfl, rfl⟩, fun now j => rfl, ?_⟩
  intro now j h3 hlt
  rw [h3] at hlt ⊢
  by_cases h : 3 ≤ j.retryCount + 1 <;>
    refine ⟨by simp [processJob, h], by simp [processJob, h]; omega, ?_, ?_⟩ <;>
    simp [processJob, h] <;> omega

/-- Witness for C4: the amended theorem applied to a retrying job with
one consumed retry (`max_retries = 3`): the failing attempt sets
`retry_count = 2` and status `retrying`. -/
theorem C4_retry_budget_witness :
    (processJob 0 onceRetriedJob false).retryCount = 2 ∧
    (processJob 0 onceRetriedJob false).status = .retrying := by
  have h := C4_retry_budget_constant_three.2.2 0 onceRetriedJob rfl (by decide)
  exact ⟨h.1.trans (by decide), h.2.2.2.mpr (by decide)⟩

/-- C5, counterexample.  The claim asserts that a job claimed long ago
(`processing`, stale `locked_at`) becomes claimable again once the
lease bound passes.  In the code, the claim query never looks at
`locked_at` and selects only `pending`/`retrying` rows: a `processing`
job with `locked_at = 0` is still not selected at an arbitrarily late
`now`, and a batch run leaves it untouched. -/
theorem C5_counterexample :
    staleClaimedJob.status = .processing ∧
    staleClaimedJob.lockedAt = some 0 ∧
    isReady 1000000000 staleClaimedJob = false ∧
    selectBatch [staleClaimedJob] 1000000000 = [] ∧
    processBatch [staleClaimedJob] 1000000000 (fun _ => .ok) = [staleClaimedJob] := by
  decide

/-- C5, amended: there is no lease reclaim.  Eligibility for claiming is
a function of `status` and `scheduled_at` only — `locked_at` does not
influence it — and no job in `processing` status is ever selected by a
batch run, however old its lease. -/
theorem C5_no_lease_reclaim :
    (∀ (now : Nat) (j : Job) (t : Option Nat),
       isReady now { j with lockedAt := t } = isReady now j) ∧
    (∀ (table : List Job) (now : Nat) (j : Job),
       j ∈ selectBatch table now → j.status ≠ .processing) := by
  constructor
  · intro now j t; simp [isReady]
  · intro table now j h hstat
    have hready := (isReady_iff now j).mp (isReady_of_mem_selectBatch h)
    rcases hready.1 with h2 | h2 <;> rw [hstat] at h2 <;> exact absurd h2 (by decide)

/-- Witness for C5: the amended theorem applied to a one-job table with
a due pending job. -/
theorem C5_no_lease_reclaim_witness : baseJob.status ≠ .processing :=
  C5_no_lease_reclaim.2 [baseJob] 0 baseJob (by decide)

/-- C7, counterexample.  The claim asserts that a batch run processes
the selected jobs in ascending `scheduled_at` order.  The query has no
`order_by`, so rows come back in table order: with a table holding a
job scheduled at 10 before a job scheduled at 5, both due, the selected
batch is `[10, 5]` — not ascending. -/
theorem C7_counterexample :
    (selectBatch [lateJob, earlyJob] 10).map Job.scheduledAt = [10, 5] ∧
    ¬ List.Sorted (· ≤ ·) ((selectBatch [lateJob, earlyJob] 10).map Job.scheduledAt) := by
  refine ⟨rfl, ?_⟩
  intro h
  have : (10 : Nat) ≤ 5 := List.rel_of_sorted_cons h 5 (by decide)
  omega

/-- C7, amended: a batch run selects exactly the jobs with
`status ∈ {pending, retrying}` and `scheduled_at ≤ now` — all of them
whenever at most 50 are ready — takes at most 50, and keeps them in
table order (a sublist of the table), with no ordering by
`scheduled_at`. -/
theorem C7_batch_selection :
    (∀ (table : List Job) (now : Nat), (selectBatch table now).length ≤ 50) ∧
    (∀ (table : List Job) (now : Nat), (selectBatch table now).Sublist table) ∧
    (∀ (table : List Job) (now : Nat) (j : Job),
       j ∈ selectBatch table now → isReady now j = true) ∧
    (∀ (table : List Job) (now : Nat),
       (table.filter (isReady now)).length ≤ 50 →
       ∀ j ∈ table, isReady now j = true → j ∈ selectBatch table now) := by
  refine ⟨?_, selectBatch_sublist, ?_, ?_⟩
  · intro table now
    exact List.length_take_le 50 (table.filter (isReady now))
  · intro table now j h; exact isReady_of_mem_selectBatch h
  · intro table now hle j hj hready
    unfold selectBatch
    rw [List.take_of_length_le hle]
    exact List.mem_filter.mpr ⟨hj, hready⟩

/-- Witness for C7: the amended theorem applied to the two-job table of
the counterexample — both due jobs are selected. -/
theorem C7_batch_selection_witness :
    isReady 10 lateJob = true ∧ earlyJob ∈ selectBatch [lateJob, earlyJob] 10 :=
  ⟨C7_batch_selection.2.2.1 [lateJob, earlyJob] 10 lateJob (by decide),
   C7_batch_selection.2.2.2 [lateJob, earlyJob] 10 (by decide) earlyJob (by decide)
     (by decide)⟩

/-- C9: per-job failure isolation and per-batch commit.  The event trace
of one `process_pending_notifications` run contains exactly one commit,
as its final event; the durable table is untouched while only the loop
(without the trailing commit) has run; and every selected job whose
processing does not raise has its mutation in the trace, for **every**
outcome environment — in particular for environments in which other
jobs of the batch raise exceptions.  This is the `continue` of the
per-job `except` block (line 303) plus the single `db.session.commit()`
(line 305). -/
theorem C9_isolation_and_single_commit :
    (∀ (table : List Job) (now : Nat) (env : Nat → Outcome),
       (batchEvents table now env).count .commit = 1) ∧
    (∀ (table : List Job) (now : Nat) (env : Nat → Outcome),
       (batchEvents table now env).getLast? = some .commit) ∧
    (∀ (table : List Job) (now : Nat) (env : Nat → Outcome),
       (runEvents table [] (loopEvents now env (selectBatch table now))).1 = table) ∧
    (∀ (table : List Job) (now : Nat) (env : Nat → Outcome) (j : Job),
       j ∈ selectBatch table now → env j.id = .ok →
         BatchEv.mutate j.id (processJob now j true) ∈ batchEvents table now env) ∧
    (∀ (table : List Job) (now : Nat) (env : Nat → Outcome) (j : Job),
       j ∈ selectBatch table now → env j.id = .sendFailed →
         BatchEv.mutate j.id (processJob now j false) ∈ batchEvents table now env) := by
  refine ⟨?_, ?_, ?_, ?_, ?_⟩
  · intro table now env
    rw [batchEvents, List.count_append, loopEvents_eq_map]
    have hz : ((collectUpdates now env (selectBatch table now)).map
        (fun p => BatchEv.mutate p.1 p.2)).count BatchEv.commit = 0 := by
      rw [List.count_eq_zero]
      intro hmem
      obtain ⟨p, _, hp⟩ := List.mem_map.mp hmem
      exact BatchEv.noConfusion hp
    rw [hz]
    rfl
  · intro table now env
    exact List.getLast?_concat _
  · intro table now env
    exact runEvents_loop_only now env (selectBatch table now) table []
  · intro table now env j hj henv
    rw [batchEvents]
    refine List.mem_append_left _ ?_
    rw [loopEvents_eq_map]
    exact List.mem_map.mpr ⟨(j.id, processJob now j true),
      collectUpdates_mem_ok hj henv, rfl⟩
  · intro table now env j hj henv
    rw [batchEvents]
    refine List.mem_append_left _ ?_
    rw [loopEvents_eq_map]
    exact List.mem_map.mpr ⟨(j.id, processJob now j false),
      collectUpdates_mem_sendFailed hj henv, rfl⟩

/-- Witness for C9: in a two-job batch where processing of the first
job (id 1) raises, the second job (id 2) is still mutated, and the run
commits exactly once. -/
theorem C9_isolation_witness :
    (batchEvents [lateJob, earlyJob] 10 exnFirstEnv).count .commit = 1 ∧
    BatchEv.mutate 2 (processJob 10 earlyJob true) ∈
      batchEvents [lateJob, earlyJob] 10 exnFirstEnv :=
  ⟨C9_isolation_and_single_commit.1 [lateJob, earlyJob] 10 exnFirstEnv,
   C9_isolation_and_single_commit.2.2.2.1 [lateJob, earlyJob] 10 exnFirstEnv earlyJob
     (by decide) rfl⟩

/-- C3: the worker loop tick.  The acquire call returns true exactly
when no unexpired holder exists; on true the tick runs exactly one
batch and then releases the lock (the key is cleared afterwards); on
false the tick changes nothing and processes nothing. -/
theorem C3_worker_lock_tick :
    (∀ (store : LockStore) (key : String) (ttl now : Nat),
       (acquireDistributedLock store key ttl now).1 = true ↔
         (∀ e, store key = some e → e ≤ now)) ∧
    (∀ (interval : Nat) (store : LockStore) (table : List Job) (now : Nat)
       (env : Nat → Outcome),
       (acquireDistributedLock store lockKey (interval * 2) now).1 = true →
         workerTick interval store table now env =
           (releaseDistributedLock
              (acquireDistributedLock store lockKey (interval * 2) now).2 lockKey,
            processBatch table now env, true) ∧
         (workerTick interval store table now env).1 lockKey = none) ∧
    (∀ (interval : Nat) (store : LockStore) (table : List Job) (now : Nat)
       (env : Nat → Outcome),
       (acquireDistributedLock store lockKey (interval * 2) now).1 = false →
         workerTick interval store table now env = (store, table, false)) := by
  refine ⟨?_, ?_, ?_⟩
  · intro store key ttl now
    unfold acquireDistributedLock
    cases h : store key with
    | none => simp
    | some e =>
        by_cases hlt : now < e
        · simp [hlt]
        · simp [hlt]
          omega
  · intro interval store table now env h
    constructor
    · simp [workerTick, h]
    · simp [workerTick, h, releaseDistributedLock]
  · intro interval store table now env h
    have h2 : (acquireDistributedLock store lockKey (interval * 2) now).2 = store := by
      unfold acquireDistributedLock at h ⊢
      cases h' : store lockKey with
      | none => rw [h'] at h; simp at h
      | some e =>
          rw [h'] at h
          by_cases hlt : now < e
          · simp [hlt]
          · simp [hlt] at h
    simp [workerTick, h, h2]

/-- Witness for C3: with an empty lock table the worker acquires the
lock, processes a batch and clears the key; with an unexpired holder
the tick leaves everything unchanged. -/
theorem C3_worker_lock_witness :
    (acquireDistributedLock emptyLockStore lockKey 60 0).1 = true ∧
    (workerTick 30 emptyLockStore [] 0 (fun _ => .ok)).1 lockKey = none ∧
    workerTick 30 heldLockStore [] 0 (fun _ => .ok) = (heldLockStore, [], false) :=
  ⟨(C3_worker_lock_tick.1 emptyLockStore lockKey 60 0).mpr
      (fun e he => by simp [emptyLockStore] at he),
   (C3_worker_lock_tick.2.1 30 emptyLockStore [] 0 (fun _ => .ok) rfl).2,
   C3_worker_lock_tick.2.2 30 heldLockStore [] 0 (fun _ => .ok) rfl⟩

lemma iterFailures_spec (th tmo now : Nat) (hth : 1 ≤ th) :
    ∀ k, k ≤ th →
      iterFailures (mkCircuitBreaker th tmo) now k =
        { failureThreshold := th, recoveryTimeout := tmo, failureCount := k,
          lastFailureTime := if k = 0 then none else some now,
          state := if k < th then .closed else .opened } := by
  intro k
  induction k with
  | zero =>
      intro _
      have h0 : 0 < th := hth
      simp [iterFailures, mkCircuitBreaker, h0]
  | succ n ih =>
      intro h
      have hn : n < th := lt_of_lt_of_le (Nat.lt_succ_self n) h
      rw [iterFailures, ih (Nat.le_of_succ_le h)]
      by_cases hth2 : n + 1 < th
      · have hnotle : ¬ th ≤ n + 1 := by omega
        simp [cbCall, invokeGuarded, onFailure, hn, hth2, hnotle]
      · have hle : th ≤ n + 1 := Nat.not_lt.mp hth2
        simp [cbCall, invokeGuarded, onFailure, hn, hth2, hle]

/-- C6: the circuit breaker state machine.  From a fresh (closed)
breaker, `failure_threshold` consecutive failing calls open it (the
failure count reaching the threshold); while open and with the recovery
timeout not yet elapsed since the last failure, `call` raises the
fail-fast error without invoking the wrapped function and without
touching the breaker state; once the timeout has elapsed the next call
is let through as a half-open probe whose success closes the breaker
with the failure count reset to zero and whose failure reopens it with
`last_failure_time` restarted at the current instant. -/
theorem C6_circuit_breaker :
    (∀ (th tmo now : Nat), 1 ≤ th →
       (iterFailures (mkCircuitBreaker th tmo) now th).state = .opened ∧
       (iterFailures (mkCircuitBreaker th tmo) now th).failureCount = th) ∧
    (∀ (cb : CircuitBreaker) (now : Nat) (r : Option String),
       cb.state = .opened → shouldAttemptReset cb now = false →
       cbCall cb now r = (.fastFail, cb)) ∧
    (∀ (cb : CircuitBreaker) (now : Nat),
       cb.state = .opened → shouldAttemptReset cb now = true →
       cbCall cb now none =
         (.succeeded, { cb with state := .closed, failureCount := 0 }) ∧
       (cb.failureThreshold ≤ cb.failureCount → ∀ e,
          cbCall cb now (some e) =
            (.raised e, { cb with state := .opened, failureCount := cb.failureCount + 1, lastFailureTime := some now }))) := by
  refine ⟨?_, ?_, ?_⟩
  · intro th tmo now hth
    rw [iterFailures_spec th tmo now hth th le_rfl]
    simp
  · intro cb now r h1 h2
    simp [cbCall, h1, h2]
  · intro cb now h1 h2
    constructor
    · simp [cbCall, h1, h2, invokeGuarded, onSuccess]
    · intro hle e
      have h3 : cb.failureThreshold ≤ cb.failureCount + 1 := Nat.le_succ_of_le hle
      simp [cbCall, h1, h2, invokeGuarded, onFailure, h3]

/-- Witness for C6: the concrete breaker of `TelegramService`
(threshold 5, recovery 300 s): five consecutive failures at instant 0
open it; at instant 10 a call fails fast; at instant 300 the probe is
let through, closing on success and reopening (timer restarted) on
failure. -/
theorem C6_circuit_breaker_witness :
    (iterFailures (mkCircuitBreaker 5 300) 0 5).state = .opened ∧
    cbCall openBreaker 10 (some "x") = (.fastFail, openBreaker) ∧
    cbCall openBreaker 300 none =
      (.succeeded, { openBreaker with state := .closed, failureCount := 0 }) ∧
    cbCall openBreaker 300 (some "x") =
      (.raised "x", { openBreaker with state := .opened, failureCount := 6, lastFailureTime := some 300 }) :=
  ⟨(C6_circuit_breaker.1 5 300 0 (by decide)).1,
   C6_circuit_breaker.2.1 openBreaker 10 (some "x") rfl (by decide),
   (C6_circuit_breaker.2.2 openBreaker 300 rfl (by decide)).1,
   (C6_circuit_breaker.2.2 openBreaker 300 rfl (by decide)).2 (by decide) "x"⟩

/-- C8, counterexample.  The claim asserts the computed `scheduled_at`
delay never exceeds the configured cap — and the only cap configured
anywhere in the code is the sender-level maximum of 60 seconds.  The
queue-level delay at the very first retry is already
`5 * 3^0 = 5` minutes = 300 seconds, exceeding that cap (and the
queue-level formula applies no cap at all). -/
theorem C8_counterexample :
    60 * queueDelayMinutes 1 = 300 ∧ 60 < 60 * queueDelayMinutes 1 := by
  decide

/-- C8, amended: the queue-level delay `5 * 3^(retry_count - 1)` minutes
strictly increases with `retry_count` (from `retry_count = 1` on) and
has no cap; the sender-level delay equals
`min(base * 2^attempt + jitter, 60)` — exactly
`base * 2^attempt + jitter` whenever that value is below the 60-second
maximum, and never above 60. -/
theorem C8_backoff_monotone_capped :
    (∀ rc : Nat, 1 ≤ rc → queueDelayMinutes rc < queueDelayMinutes (rc + 1)) ∧
    (∀ (base jitter : ℚ) (attempt : Nat),
       exponentialBackoff base attempt jitter ≤ 60) ∧
    (∀ (base jitter : ℚ) (attempt : Nat),
       base * 2 ^ attempt + jitter ≤ 60 →
       exponentialBackoff base attempt jitter = base * 2 ^ attempt + jitter) := by
  refine ⟨?_, ?_, ?_⟩
  · intro rc h
    unfold queueDelayMinutes
    have hpow : 3 ^ (rc - 1) < 3 ^ (rc + 1 - 1) :=
      Nat.pow_lt_pow_right (by norm_num) (by omega)
    omega
  · intro base jitter attempt
    exact min_le_right _ _
  · intro base jitter attempt h
    exact min_eq_left h

/-- Witness for C8: the delays at the retry counts the code actually
reaches (5 and 15 minutes) are strictly increasing, and the sender
delay of the first internal attempt with base 1 s and jitter 1/2 s is
uncapped and equals the formula. -/
theorem C8_backoff_witness :
    queueDelayMinutes 1 < queueDelayMinutes 2 ∧
    exponentialBackoff 1 0 (1 / 2) ≤ 60 ∧
    exponentialBackoff 1 0 (1 / 2) = 1 * 2 ^ 0 + 1 / 2 :=
  ⟨C8_backoff_monotone_capped.1 1 (by decide),
   C8_backoff_monotone_capped.2.1 1 (1 / 2) 0,
   C8_backoff_monotone_capped.2.2 1 (1 / 2) 0 (by norm_num)⟩

lemma allFailedMsg_ne_empty (n : Nat) (e : String) : allFailedMsg n e ≠ "" := by
  intro h
  have hpos : 0 < ("Не вдалося виконати запит після " : String).length := by decide
  have hl : (allFailedMsg n e).length = 0 := by rw [h]; rfl
  rw [allFailedMsg, String.length_append, String.length_append,
    String.length_append] at hl
  omega

lemma cbCall_some (cb : CircuitBreaker) (now : Nat) (e : String) :
    (cbCall cb now (some e)).1 = .fastFail ∨ (cbCall cb now (some e)).1 = .raised e := by
  unfold cbCall invokeGuarded
  by_cases h1 : cb.state = .opened <;> by_cases h2 : shouldAttemptReset cb now = true <;>
    simp [h1, h2]

lemma retryAux_all_fail (maxRetries : Nat) (times : Nat → Nat) (env : Nat → Option String)
    (henv : ∀ a, env a ≠ none) :
    ∀ (remaining : Nat) (cb : CircuitBreaker) (lastExc : String) (attempt : Nat),
      (retryAux maxRetries times env cb lastExc attempt remaining).1.success = false ∧
      ∃ s, (retryAux maxRetries times env cb lastExc attempt remaining).1.errorMsg = some s ∧
        s ≠ "" := by
  intro remaining
  induction remaining with
  | zero =>
      intro cb lastExc attempt
      exact ⟨rfl, _, rfl, allFailedMsg_ne_empty _ _⟩
  | succ r ih =>
      intro cb lastExc attempt
      obtain ⟨e, he⟩ : ∃ e, env attempt = some e := by
        cases h : env attempt with
        | none => exact absurd h (henv attempt)
        | some e => exact ⟨e, rfl⟩
      simp only [retryAux, he]
      rcases hc : cbCall cb (times attempt) (some e) with ⟨res, cb'⟩
      cases res with
      | fastFail => exact ⟨by simp, breakerOpenError, by simp, by decide⟩
      | succeeded =>
          rcases cbCall_some cb (times attempt) e with hr | hr <;> rw [hc] at hr <;>
            simp at hr
      | raised msg =>
          by_cases ha : attempt < maxRetries
          · simp only [if_pos ha]
            exact ih cb' msg (attempt + 1)
          · simp only [if_neg ha]
            exact ⟨by simp, allFailedMsg (maxRetries + 1) msg, by simp,
              allFailedMsg_ne_empty _ _⟩

/-- C10: the Telegram send path converts the enumerated failure classes
into a returned dictionary instead of raising.  An empty chat id and an
empty (all-whitespace) message yield validation dictionaries; an open
breaker with recovery not elapsed at the first attempt yields the
fail-fast dictionary carrying `retry_after`; and whenever every guarded
attempt raises an expected (network / Telegram API) exception the
result has `success = False` and a non-empty error string.  The three
fixed error strings are non-empty. -/
theorem C10_send_returns_error_dict :
    (∀ (cb : CircuitBreaker) (mr : Nat) (msg : String) (times : Nat → Nat)
       (env : Nat → Option String),
       (sendMessageToChat cb mr "" msg times env).1 =
         { success := false, errorMsg := some emptyChatError, retryAfter := none }) ∧
    (∀ (cb : CircuitBreaker) (mr : Nat) (chatId msg : String) (times : Nat → Nat)
       (env : Nat → Option String), chatId ≠ "" → pyStrip msg = "" →
       (sendMessageToChat cb mr chatId msg times env).1 =
         { success := false, errorMsg := some emptyMessageError, retryAfter := none }) ∧
    (∀ (cb : CircuitBreaker) (mr : Nat) (chatId msg : String) (times : Nat → Nat)
       (env : Nat → Option String), chatId ≠ "" → pyStrip msg ≠ "" →
       cb.state = .opened → shouldAttemptReset cb (times 0) = false →
       (sendMessageToChat cb mr chatId msg times env).1 =
         { success := false, errorMsg := some breakerOpenError,
           retryAfter := some cb.recoveryTimeout }) ∧
    (∀ (cb : CircuitBreaker) (mr : Nat) (chatId msg : String) (times : Nat → Nat)
       (env : Nat → Option String), chatId ≠ "" → pyStrip msg ≠ "" →
       (∀ a, env a ≠ none) →
       (sendMessageToChat cb mr chatId msg times env).1.success = false ∧
       ∃ s, (sendMessageToChat cb mr chatId msg times env).1.errorMsg = some s ∧ s ≠ "") ∧
    (emptyChatError ≠ "" ∧ emptyMessageError ≠ "" ∧ breakerOpenError ≠ "") := by
  refine ⟨?_, ?_, ?_, ?_, by decide, by decide, by decide⟩
  · intro cb mr msg times env
    simp [sendMessageToChat]
  · intro cb mr chatId msg times env h1 h2
    simp [sendMessageToChat, h1, h2]
  · intro cb mr chatId msg times env h1 h2 hop hres
    have hcb : cbCall cb (times 0) (env 0) = (.fastFail, cb) := by
      simp [cbCall, hop, hres]
    simp [sendMessageToChat, h1, h2, retryWithBackoff, retryAux, hcb]
  · intro cb mr chatId msg times env h1 h2 henv
    have hmain := retryAux_all_fail mr times env henv (mr + 1) cb "" 0
    simp only [sendMessageToChat, if_neg h1, if_neg h2, retryWithBackoff]
    exact hmain

/-- Witness for C10: the concrete failure classes at concrete inputs —
whitespace-only message, open breaker before recovery, and three
always-failing attempts with `max_retries = 3`. -/
theorem C10_send_witness :
    (sendMessageToChat (mkCircuitBreaker 5 300) 3 "42" " " (fun _ => 0)
        (fun _ => some "boom")).1 =
      { success := false, errorMsg := some emptyMessageError, retryAfter := none } ∧
    (sendMessageToChat openBreaker 3 "42" "hi" (fun _ => 10)
        (fun _ => some "boom")).1 =
      { success := false, errorMsg := some breakerOpenError, retryAfter := some 300 } ∧
    (sendMessageToChat (mkCircuitBreaker 5 300) 3 "42" "hi" (fun _ => 0)
        (fun _ => some "boom")).1.success = false :=
  ⟨C10_send_returns_error_dict.2.1 (mkCircuitBreaker 5 300) 3 "42" " " (fun _ => 0)
      (fun _ => some "boom") (by decide) (by decide),
   C10_send_returns_error_dict.2.2.1 openBreaker 3 "42" "hi" (fun _ => 10)
      (fun _ => some "boom") (by decide) (by decide) rfl (by decide),
   (C10_send_returns_error_dict.2.2.2.1 (mkCircuitBreaker 5 300) 3 "42" "hi"
      (fun _ => 0) (fun _ => some "boom") (by decide) (by decide)
      (fun a => Option.some_ne_none "boom")).1⟩

end Questionnaire
